import Mathlib

/-!
Verification of the retry/wait/runtime-store layer of the Syslatech Playwright
test framework.  The TypeScript sources under `src/utils/` are shallowly
embedded below: delays are exact rationals (`ℚ`), `Math.random()` draws are
explicit rational parameters in `[0, 1)`, asynchronous operations become
functions returning `Except`, and the observable side effects of the retry
loop (operation invocations, computed delays, callback invocations, caught
callback errors) are collected in an explicit log structure.
-/

/-- JS `String.prototype.includes`: `strIncludes s pat` is true when `pat`
occurs as a contiguous substring of `s`. -/
def strIncludes (s pat : String) : Bool :=
  decide (pat.toList <:+: s.toList)

instance {E V : Type} [DecidableEq E] [DecidableEq V] :
    DecidableEq (Except E V) := fun x y =>
  match x, y with
  | Except.ok a, Except.ok b =>
    decidable_of_iff (a = b) ⟨fun h => by rw [h], fun h => by injection h⟩
  | Except.ok _, Except.error _ => isFalse (fun h => Except.noConfusion h)
  | Except.error _, Except.ok _ => isFalse (fun h => Except.noConfusion h)
  | Except.error e, Except.error f =>
    decidable_of_iff (e = f) ⟨fun h => by rw [h], fun h => by injection h⟩

namespace RetryUtils

/-- Shallow embedding of `RetryUtils.computeDelay` (`src/utils/retryUtils.ts`).
`rand` models the `Math.random()` draw, a value in `[0, 1)`.  The source:
`delay = exponential ? base * Math.pow(2, attempt - 1) : base * attempt`,
then `if (jitter) delay += Math.random() * base * 0.5`, then
`return Math.min(delay, max)`. -/
def computeDelay (base : ℚ) (attempt : ℕ) (max : ℚ)
    (exponential jitter : Bool) (rand : ℚ) : ℚ :=
  let delay : ℚ :=
    if exponential then base * (2 : ℚ) ^ ((attempt : ℤ) - 1)
    else base * (attempt : ℚ)
  let delay : ℚ := if jitter then delay + rand * base * (1 / 2) else delay
  min delay max

/-- The delay before jitter and clamping: `base * 2^(attempt-1)` for
exponential backoff, `base * attempt` for the linear fallback. -/
def rawDelay (base : ℚ) (attempt : ℕ) (exponential : Bool) : ℚ :=
  if exponential then base * (2 : ℚ) ^ ((attempt : ℤ) - 1)
  else base * (attempt : ℚ)

/-- Outcome of `RetryUtils.retry`: a returned value, a thrown error, or the
`throw lastError` with `lastError` still `undefined` (reachable only when the
loop body never runs, i.e. `retries = 0`). -/
inductive RetryOutcome (E V : Type) where
  | ok (v : V)
  | err (e : E)
  | errUndefined
deriving DecidableEq, Repr

/-- Observable side effects of one `RetryUtils.retry` run: how often the
operation was invoked, which `onRetry` invocations happened (attempt number
and error, recorded only when a callback is supplied), which callback errors
were caught (and logged), and which delays were computed and slept. -/
@[ext]
structure RetryLog (E : Type) where
  attempts : ℕ
  onRetryCalls : List (ℕ × E)
  callbackErrors : List E
  delays : List ℚ
deriving DecidableEq, Repr

/-- The empty log at the start of a run. -/
def RetryLog.empty (E : Type) : RetryLog E :=
  { attempts := 0, onRetryCalls := [], callbackErrors := [], delays := [] }

/-- Shallow embedding of the `for` loop of `RetryUtils.retry`
(`src/utils/retryUtils.ts`).  The attempt at number `attempt` calls
`op attempt`; on success the loop returns; on a fatal error it rethrows at
once (no callback, no delay); on a retryable error it invokes the optional
`onRetry` callback with the attempt number and the error, catching (and
logging) any callback error, then — only when `attempt < retries` — computes
and sleeps the delay `delayAt attempt` before the next attempt.  `fuel` is
the number of loop iterations left (`retries - attempt + 1`); at `fuel = 0`
the loop has exhausted all attempts and throws `lastError`. -/
def retryLoop (op : ℕ → Except E V) (isFatal : E → Bool)
    (onRetry : Option (ℕ → E → Except E Unit))
    (retries : ℕ) (delayAt : ℕ → ℚ) :
    ℕ → ℕ → Option E → RetryLog E → RetryOutcome E V × RetryLog E
  | 0, _attempt, lastError, log =>
    ((match lastError with
      | some e => RetryOutcome.err e
      | none => RetryOutcome.errUndefined), log)
  | fuel + 1, attempt, _lastError, log =>
    match op attempt with
    | Except.ok v => (RetryOutcome.ok v, { log with attempts := log.attempts + 1 })
    | Except.error e =>
      let log1 : RetryLog E := { log with attempts := log.attempts + 1 }
      if isFatal e then (RetryOutcome.err e, log1)
      else
        let log2 : RetryLog E :=
          match onRetry with
          | none => log1
          | some cb =>
            match cb attempt e with
            | Except.ok _ =>
              { log1 with onRetryCalls := log1.onRetryCalls ++ [(attempt, e)] }
            | Except.error cbErr =>
              { log1 with onRetryCalls := log1.onRetryCalls ++ [(attempt, e)],
                          callbackErrors := log1.callbackErrors ++ [cbErr] }
        let log3 : RetryLog E :=
          if attempt < retries then
            { log2 with delays := log2.delays ++ [delayAt attempt] }
          else log2
        retryLoop op isFatal onRetry retries delayAt fuel (attempt + 1) (some e) log3

/-- The `onRetry` invocations recorded by a run of `k` consecutive retryable
failures starting at attempt `attempt`, with `errs i` the error of attempt `i`:
one invocation `(i, errs i)` per failed attempt when a callback is supplied,
none otherwise. -/
def onRetrySeg (onRetry : Option (ℕ → E → Except E Unit)) (errs : ℕ → E)
    (attempt k : ℕ) : List (ℕ × E) :=
  match onRetry with
  | none => []
  | some _ => (List.range' attempt k).map (fun i => (i, errs i))

/-- The callback errors caught during `k` consecutive retryable failures
starting at attempt `attempt`: the errors thrown by the supplied callback. -/
def cbErrSeg (onRetry : Option (ℕ → E → Except E Unit)) (errs : ℕ → E)
    (attempt k : ℕ) : List E :=
  match onRetry with
  | none => []
  | some cb =>
    (List.range' attempt k).filterMap (fun i =>
      match cb i (errs i) with
      | Except.ok _ => none
      | Except.error ce => some ce)

/-- The delays computed during `k` consecutive retryable failures starting at
attempt `attempt`: one per failed attempt that is not the last configured
attempt. -/
def delaySeg (delayAt : ℕ → ℚ) (retries attempt k : ℕ) : List ℚ :=
  ((List.range' attempt k).filter (fun i => decide (i < retries))).map delayAt

/-- Shallow embedding of `RetryUtils.retry`: run the loop from attempt 1 with
`retries` iterations available, computing each inter-attempt delay with
`computeDelay` from the configured base, cap, and flags; `rand attempt` is the
`Math.random()` draw used for the delay after the given attempt. -/
def retry (op : ℕ → Except E V) (isFatal : E → Bool)
    (onRetry : Option (ℕ → E → Except E Unit))
    (retries : ℕ) (baseDelayMs maxDelayMs : ℚ) (exponential jitter : Bool)
    (rand : ℕ → ℚ) : RetryOutcome E V × RetryLog E :=
  retryLoop op isFatal onRetry retries
    (fun attempt =>
      computeDelay baseDelayMs attempt maxDelayMs exponential jitter (rand attempt))
    retries 1 none (RetryLog.empty E)

/-- The fatal-error message patterns of `RetryUtils.isFatal`
(`src/utils/retryUtils.ts`). -/
def fatalPatterns : List String :=
  ["Invalid selector", "Malformed selector", "not a function", "TypeError",
   "ReferenceError", "Cannot read properties", "Cannot find module",
   "Environment configuration invalid", "browser has been closed",
   "Target page", "Context has been closed",
   "Execution context was destroyed", "Element not editable",
   "Element detached", "Navigation failed",
   "Node is either not visible or not an HTMLElement", "net::ERR"]

/-- Shallow embedding of `RetryUtils.isFatal`: a message is fatal when it
contains one of the fatal patterns as a substring. -/
def isFatal (message : String) : Bool :=
  fatalPatterns.any (fun p => strIncludes message p)

end RetryUtils

namespace ErrorHandler

/-- JS `String.prototype.toLowerCase` restricted to its ASCII behavior
(the classifier patterns below are all ASCII): lower-case every character. -/
def strToLower (s : String) : String :=
  String.mk (s.toList.map Char.toLower)

/-- Shallow embedding of `ErrorHandler.isNetworkError`
(`src/utils/errorHandler.ts`): message-substring network classifier. -/
def isNetworkError (msg : String) : Bool :=
  strIncludes msg ("net::") || strIncludes msg ("ERR_")
    || strIncludes msg ("ECONNRESET") || strIncludes msg ("ECONNREFUSED")

/-- Shallow embedding of `ErrorHandler.isTimeoutError`: true when the
lower-cased message contains the substring "timeout". -/
def isTimeoutError (msg : String) : Bool :=
  strIncludes (strToLower msg) ("timeout")

/-- Shallow embedding of `ErrorHandler.isFatalPlaywrightError`: catastrophic
browser/page errors by message substring. -/
def isFatalPlaywrightError (msg : String) : Bool :=
  strIncludes msg ("Target page")
    || strIncludes msg ("browser has been closed")
    || strIncludes msg ("Context has been closed")
    || strIncludes msg ("Navigation failed")
    || strIncludes msg ("Invalid selector")

end ErrorHandler

namespace WaitUtils

/-- The error message thrown by `WaitUtils.waitForText` on timeout
(`src/utils/waitUtils.ts`):
`` Timeout waiting for text "<expected>" in → <name> ``. -/
def textTimeoutMsg (expected name : String) : String :=
  "Timeout waiting for text \"" ++ expected ++ "\" in → " ++ name

/-- The error-level log line emitted by `WaitUtils.waitForText` on timeout,
with `elapsed` the elapsed milliseconds:
`` Text "<expected>" NOT found after <elapsed>ms → <name> ``. -/
def textNotFoundLog (expected : String) (elapsed : ℕ) (name : String) :
    String :=
  "Text \"" ++ expected ++ "\" NOT found after " ++ toString elapsed ++
    "ms → " ++ name

/-- One poll of the target's `textContent()` at iteration `n` followed by the
`text?.includes(expected)` check; `textAt n = none` models a `textContent`
failure (caught by `.catch(() => null)`) or a null text. -/
def textMatches (textAt : ℕ → Option String) (expected : String) (n : ℕ) :
    Bool :=
  match textAt n with
  | some t => strIncludes t expected
  | none => false

/-- Shallow embedding of the polling loop of `WaitUtils.waitForText`
(`src/utils/waitUtils.ts`).  Time advances by `interval` milliseconds per
iteration (each `textContent` poll is instantaneous), so the `n`-th poll
happens at elapsed time `n * interval` and the `while` guard is
`n * interval < timeout`.  On a matching poll the function returns `ok`
(only the error-level log lines are modelled); when the guard fails it logs
the error line (carrying the elapsed time and the label) and throws the
timeout message (which carries the expected text and the label, but no
elapsed time).  `fuel` bounds the recursion; `waitForText` supplies
`timeout + 1`, which for a positive `interval` is more iterations than the
guard can ever allow, so the `fuel = 0` branch (which produces the same
timeout result) is never the deciding exit. -/
def waitForTextGo (textAt : ℕ → Option String) (expected : String)
    (timeout interval : ℕ) (name : String) :
    ℕ → ℕ → Except String Unit × List String
  | 0, n =>
    (Except.error (textTimeoutMsg expected name),
     [textNotFoundLog expected (n * interval) name])
  | fuel + 1, n =>
    if n * interval < timeout then
      if textMatches textAt expected n then (Except.ok (), [])
      else waitForTextGo textAt expected timeout interval name fuel (n + 1)
    else
      (Except.error (textTimeoutMsg expected name),
       [textNotFoundLog expected (n * interval) name])

/-- Shallow embedding of `WaitUtils.waitForText`, polling from iteration 0. -/
def waitForText (textAt : ℕ → Option String) (expected : String)
    (timeout interval : ℕ) (name : String) :
    Except String Unit × List String :=
  waitForTextGo textAt expected timeout interval name (timeout + 1) 0

/-- Shallow embedding of `WaitUtils.waitForElementToDisappear`
(`src/utils/waitUtils.ts`): `waitForHidden` is the outcome of the underlying
`locator.waitFor(\x7b state: "hidden", timeout \x7d)` (its error is whatever
the automation library throws) and `elapsed` the measured elapsed time.  On
failure the error-level line `` Timeout after <elapsed>ms → <name> `` is
logged and the underlying error is rethrown unchanged. -/
def waitForElementToDisappear (waitForHidden : Except String Unit)
    (elapsed : ℕ) (name : String) : Except String Unit × List String :=
  match waitForHidden with
  | Except.ok _ => (Except.ok (), [])
  | Except.error e =>
    (Except.error e,
     ["Timeout after " ++ toString elapsed ++ "ms → " ++ name])

end WaitUtils

namespace ElementUtils

/-- A DOM bounding box as returned by `locator.boundingBox()`. -/
structure BoundingBox where
  x : ℚ
  y : ℚ
  width : ℚ
  height : ℚ
deriving DecidableEq, Repr

/-- The environment one `ElementUtils.click` attempt runs against
(`src/utils/elementUtils.ts`): the outcomes of the underlying
automation-library calls — waiting for visibility, the best-effort scroll,
the direct `locator.click()`, and the bounding-box query (`none` when the
element has no box, e.g. is not rendered). -/
structure ClickWorld where
  waitVisible : Except String Unit
  scrollIntoView : Except String Unit
  directClick : Except String Unit
  boundingBox : Option BoundingBox
deriving DecidableEq, Repr

/-- The interactions one click attempt dispatches, in order. -/
inductive ClickEvent where
  | scrolled
  | directClicked
  | mouseClicked (x y : ℚ)
deriving DecidableEq, Repr

/-- The events of the best-effort scroll
(`try { await locator.scrollIntoViewIfNeeded(...) } catch {}`): a scroll
failure is swallowed and dispatches nothing. -/
def scrollEvents (w : ClickWorld) : List ClickEvent :=
  match w.scrollIntoView with
  | Except.ok _ => [ClickEvent.scrolled]
  | Except.error _ => []

/-- Shallow embedding of one attempt of `ElementUtils.click` (the function
passed to `RetryUtils.retry` in `src/utils/elementUtils.ts`): wait for
visibility, best-effort scroll, try the direct click and return on success;
on a direct-click failure query the bounding box and either dispatch a
synthetic mouse click at the box's center `(x + width/2, y + height/2)` or,
when no box is available, throw `Bounding box not found → <label>` without
dispatching any coordinate click. -/
def clickAttempt (w : ClickWorld) (label : String) :
    Except String Unit × List ClickEvent :=
  match w.waitVisible with
  | Except.error e => (Except.error e, [])
  | Except.ok _ =>
    match w.directClick with
    | Except.ok _ =>
      (Except.ok (), scrollEvents w ++ [ClickEvent.directClicked])
    | Except.error _ =>
      match w.boundingBox with
      | none =>
        (Except.error ("Bounding box not found → " ++ label), scrollEvents w)
      | some box =>
        (Except.ok (),
         scrollEvents w ++
           [ClickEvent.mouseClicked (box.x + box.width / 2)
             (box.y + box.height / 2)])

end ElementUtils

/-- A JavaScript value as seen by the `Runtime` store: either `undefined` or
a defined value of type `V`. -/
inductive JSValue (V : Type) where
  | undefinedV
  | val (v : V)
deriving DecidableEq, Repr

namespace Runtime

/-- The `Runtime` store (`src/utils/validationUtils.ts`):
`private static store: Record<string, any>`.  Reading an absent key of a JS
object yields `undefined`, and `get`/`has` observe nothing beyond that read,
so a store is modelled by its lookup function, with absent keys reading as
`undefined`. -/
def Store (V : Type) : Type :=
  String → JSValue V

/-- `Runtime.set`: `this.store[key] = value` — unconditional overwrite. -/
def set (store : Store V) (key : String) (value : JSValue V) : Store V :=
  fun k => if k = key then value else store k

/-- `Runtime.get`: `return this.store[key]` (`undefined` when absent). -/
def get (store : Store V) (key : String) : JSValue V :=
  store key

/-- `Runtime.has`: `this.store[key] !== undefined`. -/
def has (store : Store V) (key : String) : Bool :=
  match store key with
  | JSValue.undefinedV => false
  | JSValue.val _ => true

/-- `Runtime.remove`: `delete this.store[key]` — the key reads as
`undefined` afterwards. -/
def remove (store : Store V) (key : String) : Store V :=
  fun k => if k = key then JSValue.undefinedV else store k

/-- `Runtime.clear`: `this.store = {}`. -/
def clear (V : Type) : Store V :=
  fun _ => JSValue.undefinedV

end Runtime

namespace RetryUtils

theorem computeDelay_eq (base : ℚ) (attempt : ℕ) (max : ℚ)
    (exponential jitter : Bool) (rand : ℚ) :
    computeDelay base attempt max exponential jitter rand =
      min (rawDelay base attempt exponential +
        (if jitter then rand * base * (1 / 2) else 0)) max := by
  unfold computeDelay rawDelay
  cases jitter <;> cases exponential <;> simp

/-- C3: the delay computed between retry attempts equals
`min (d + j) m` where `d = base * 2^(attempt-1)` under exponential backoff and
`d = base * attempt` otherwise, and `j` is the jitter term `rand * base * 0.5`
(zero when jitter is disabled), which for a positive base and a draw
`rand ∈ [0, 1)` lies in `[0, base * 0.5)`; with jitter disabled and exponential
enabled the delay before clamping is exactly `base * 2^(attempt-1)`. -/
theorem computeDelay_formula (base : ℚ) (attempt : ℕ) (max : ℚ)
    (exponential jitter : Bool) (rand : ℚ)
    (_ha : 1 ≤ attempt) (hr0 : 0 ≤ rand) (hr1 : rand < 1) :
    computeDelay base attempt max exponential jitter rand =
      min ((if exponential then base * (2 : ℚ) ^ ((attempt : ℤ) - 1)
            else base * (attempt : ℚ)) +
           (if jitter then rand * base * (1 / 2) else 0)) max
    ∧ (jitter = true → 0 < base →
        0 ≤ rand * base * (1 / 2) ∧ rand * base * (1 / 2) < base * (1 / 2))
    ∧ (jitter = false → exponential = true →
        computeDelay base attempt max exponential jitter rand =
          min (base * (2 : ℚ) ^ ((attempt : ℤ) - 1)) max) := by
  refine ⟨computeDelay_eq base attempt max exponential jitter rand, ?_, ?_⟩
  · intro _ hb
    constructor
    · positivity
    · have h1 : rand * base < base := by nlinarith
      nlinarith
  · intro hj he
    subst hj; subst he
    simpa using computeDelay_eq base attempt max true false rand

/-- C4 (counterexample): with `base = 3000`, `attempt = 3`, `maxDelayMs = 9000`,
exponential backoff, jitter enabled, and jitter draw `0`, the computed delay is
`9000`, strictly below the unjittered delay `3000 * 2^2 = 12000`; the claim
that the jittered delay never falls below the unjittered delay is false once
the unjittered delay exceeds the cap. -/
theorem computeDelay_below_unjittered :
    computeDelay 3000 3 9000 true true 0 = 9000
    ∧ rawDelay 3000 3 true = 12000
    ∧ computeDelay 3000 3 9000 true true 0 < rawDelay 3000 3 true := by
  norm_num [computeDelay, rawDelay, min_def]

/-- C4 (amended): for a positive base and any jitter draw in `[0, 1)`, the
jittered delay never falls below the unjittered delay clamped at `maxDelayMs`
(that is, `min (rawDelay) maxDelayMs`) and never exceeds `maxDelayMs`. -/
theorem computeDelay_jitter_bounds (base : ℚ) (attempt : ℕ) (max : ℚ)
    (exponential : Bool) (rand : ℚ)
    (hb : 0 < base) (hr0 : 0 ≤ rand) (_hr1 : rand < 1) :
    min (rawDelay base attempt exponential) max ≤
      computeDelay base attempt max exponential true rand
    ∧ computeDelay base attempt max exponential true rand ≤ max := by
  have hj : (0 : ℚ) ≤ rand * base * (1 / 2) := by positivity
  rw [computeDelay_eq]
  constructor
  · simp only [if_pos rfl]
    exact min_le_min (le_add_of_nonneg_right hj) le_rfl
  · exact min_le_right _ _

/-- C5: evaluating `computeDelay` at the negative base `-1000` (attempt 1,
cap 9000, exponential and jitter enabled, jitter draw `1/2`) yields `-1250`,
a negative delay: the code has no lower clamp, contradicting the requirement
that a zero or negative base must not produce a negative delay. -/
theorem computeDelay_negative_base_negative :
    computeDelay (-1000) 1 9000 true true (1 / 2) = -1250
    ∧ computeDelay (-1000) 1 9000 true true (1 / 2) < 0 := by
  norm_num [computeDelay, min_def]

theorem onRetrySeg_zero (onRetry : Option (ℕ → E → Except E Unit))
    (errs : ℕ → E) (attempt : ℕ) : onRetrySeg onRetry errs attempt 0 = [] := by
  cases onRetry <;> simp [onRetrySeg]

theorem cbErrSeg_zero (onRetry : Option (ℕ → E → Except E Unit))
    (errs : ℕ → E) (attempt : ℕ) : cbErrSeg onRetry errs attempt 0 = [] := by
  cases onRetry <;> simp [cbErrSeg]

theorem delaySeg_zero (delayAt : ℕ → ℚ) (retries attempt : ℕ) :
    delaySeg delayAt retries attempt 0 = [] := by
  simp [delaySeg]

theorem onRetrySeg_none (errs : ℕ → E) (attempt k : ℕ) :
    onRetrySeg (E := E) none errs attempt k = [] := rfl

theorem cbErrSeg_none (errs : ℕ → E) (attempt k : ℕ) :
    cbErrSeg (E := E) none errs attempt k = [] := rfl

theorem onRetrySeg_some_succ (cb : ℕ → E → Except E Unit) (errs : ℕ → E)
    (attempt k : ℕ) :
    onRetrySeg (some cb) errs attempt (k + 1) =
      (attempt, errs attempt) :: onRetrySeg (some cb) errs (attempt + 1) k := by
  simp [onRetrySeg, List.range'_succ]

theorem cbErrSeg_some_succ (cb : ℕ → E → Except E Unit) (errs : ℕ → E)
    (attempt k : ℕ) :
    cbErrSeg (some cb) errs attempt (k + 1) =
      (match cb attempt (errs attempt) with
       | Except.ok _ => []
       | Except.error ce => [ce]) ++ cbErrSeg (some cb) errs (attempt + 1) k := by
  simp only [cbErrSeg, List.range'_succ, List.filterMap_cons]
  cases cb attempt (errs attempt) <;> simp

theorem delaySeg_succ (delayAt : ℕ → ℚ) (retries attempt k : ℕ) :
    delaySeg delayAt retries attempt (k + 1) =
      (if attempt < retries then [delayAt attempt] else []) ++
        delaySeg delayAt retries (attempt + 1) k := by
  simp only [delaySeg, List.range'_succ, List.filter_cons]
  by_cases h : attempt < retries <;> simp [h]

theorem retryLoop_zero (op : ℕ → Except E V) (isFatal : E → Bool)
    (onRetry : Option (ℕ → E → Except E Unit)) (retries : ℕ) (delayAt : ℕ → ℚ)
    (attempt : ℕ) (last : Option E) (log : RetryLog E) :
    retryLoop op isFatal onRetry retries delayAt 0 attempt last log =
      ((match last with
        | some e => RetryOutcome.err e
        | none => RetryOutcome.errUndefined), log) := rfl

theorem retryLoop_congr (op : ℕ → Except E V) (isFatal : E → Bool)
    (onRetry : Option (ℕ → E → Except E Unit)) (retries : ℕ) (delayAt : ℕ → ℚ)
    {f1 f2 a1 a2 : ℕ} {l1 l2 : Option E} {g1 g2 : RetryLog E}
    (hf : f1 = f2) (ha : a1 = a2) (hl : l1 = l2) (hg : g1 = g2) :
    retryLoop op isFatal onRetry retries delayAt f1 a1 l1 g1 =
      retryLoop op isFatal onRetry retries delayAt f2 a2 l2 g2 := by
  rw [hf, ha, hl, hg]

/-- Run lemma: `k` consecutive retryable (non-fatal) failures starting at
attempt `attempt` advance the loop to attempt `attempt + k`, consuming `k`
fuel, recording `k` operation invocations together with the corresponding
`onRetry` invocations, caught callback errors, and computed delays, and
leaving the error of attempt `attempt + k - 1` as the last error. -/
theorem retryLoop_nonfatal_run (op : ℕ → Except E V) (isFatal : E → Bool)
    (onRetry : Option (ℕ → E → Except E Unit)) (retries : ℕ) (delayAt : ℕ → ℚ)
    (errs : ℕ → E) :
    ∀ (k attempt fuel : ℕ) (last : Option E) (log : RetryLog E),
      attempt + fuel = retries + 1 →
      attempt + k ≤ retries + 1 →
      (∀ i, attempt ≤ i → i < attempt + k →
        op i = Except.error (errs i) ∧ isFatal (errs i) = false) →
      retryLoop op isFatal onRetry retries delayAt fuel attempt last log =
        retryLoop op isFatal onRetry retries delayAt (fuel - k) (attempt + k)
          (if k = 0 then last else some (errs (attempt + k - 1)))
          { attempts := log.attempts + k,
            onRetryCalls := log.onRetryCalls ++ onRetrySeg onRetry errs attempt k,
            callbackErrors := log.callbackErrors ++ cbErrSeg onRetry errs attempt k,
            delays := log.delays ++ delaySeg delayAt retries attempt k } := by
  intro k
  induction k with
  | zero =>
    intro attempt fuel last log _h1 _h2 _h3
    simp [onRetrySeg_zero, cbErrSeg_zero, delaySeg_zero]
  | succ k ih =>
    intro attempt fuel last log h1 h2 h3
    obtain ⟨fuel', rfl⟩ : ∃ f, fuel = f + 1 := ⟨fuel - 1, by omega⟩
    have hop : op attempt = Except.error (errs attempt) :=
      (h3 attempt le_rfl (by omega)).1
    have hnf : isFatal (errs attempt) = false :=
      (h3 attempt le_rfl (by omega)).2
    have step :
        retryLoop op isFatal onRetry retries delayAt (fuel' + 1) attempt last log =
          retryLoop op isFatal onRetry retries delayAt fuel' (attempt + 1)
            (some (errs attempt))
            { attempts := log.attempts + 1,
              onRetryCalls := log.onRetryCalls ++
                onRetrySeg onRetry errs attempt 1,
              callbackErrors := log.callbackErrors ++
                cbErrSeg onRetry errs attempt 1,
              delays := log.delays ++ delaySeg delayAt retries attempt 1 } := by
      rw [retryLoop, hop]
      simp only [hnf, Bool.false_eq_true, if_false]
      cases onRetry with
      | none =>
        simp only [onRetrySeg_none, cbErrSeg_none, List.append_nil]
        by_cases hd : attempt < retries <;>
          simp [hd, delaySeg, List.range'_succ]
      | some cb =>
        cases hcb : cb attempt (errs attempt) with
        | ok u =>
          by_cases hd : attempt < retries <;>
            simp [hcb, hd, delaySeg, onRetrySeg, cbErrSeg, List.range'_succ]
        | error ce =>
          by_cases hd : attempt < retries <;>
            simp [hcb, hd, delaySeg, onRetrySeg, cbErrSeg, List.range'_succ]
    rw [step]
    rw [ih (attempt + 1) fuel' (some (errs attempt)) _ (by omega) (by omega)
      (fun i hi1 hi2 => h3 i (by omega) (by omega))]
    refine retryLoop_congr op isFatal onRetry retries delayAt
      (by omega) (by omega) ?_ ?_
    · rcases Nat.eq_zero_or_pos k with h0 | h0
      · subst h0; simp
      · rw [if_neg (by omega), if_neg (by omega)]
        have : attempt + 1 + k - 1 = attempt + (k + 1) - 1 := by omega
        rw [this]
    · simp only [RetryLog.mk.injEq]
      refine ⟨by omega, ?_, ?_, ?_⟩
      · cases onRetry with
        | none => simp [onRetrySeg_none]
        | some cb =>
          simp [onRetrySeg_some_succ, onRetrySeg, List.range'_succ,
            List.append_assoc]
      · cases onRetry with
        | none => simp [cbErrSeg_none]
        | some cb =>
          rw [cbErrSeg_some_succ]
          cases hcb : cb attempt (errs attempt) <;>
            simp [hcb, cbErrSeg, List.range'_succ, List.append_assoc]
      · rw [delaySeg_succ]
        by_cases hd : attempt < retries <;>
          simp [hd, delaySeg, List.range'_succ, List.filter_cons,
            List.append_assoc]

theorem delaySeg_all (delayAt : ℕ → ℚ) (retries attempt k : ℕ)
    (h : attempt + k ≤ retries) :
    delaySeg delayAt retries attempt k = (List.range' attempt k).map delayAt := by
  unfold delaySeg
  congr 1
  refine List.filter_eq_self.mpr ?_
  intro i hi
  have := List.mem_range'_1.mp hi
  simp only [decide_eq_true_eq]
  omega

theorem delaySeg_last (delayAt : ℕ → ℚ) (N : ℕ) (hN : 1 ≤ N) :
    delaySeg delayAt N 1 N = (List.range' 1 (N - 1)).map delayAt := by
  obtain ⟨M, rfl⟩ : ∃ M, N = M + 1 := ⟨N - 1, by omega⟩
  unfold delaySeg
  rw [List.range'_1_concat, List.filter_append]
  have h1 : List.filter (fun i => decide (i < M + 1)) (List.range' 1 M) =
      List.range' 1 M := by
    refine List.filter_eq_self.mpr ?_
    intro i hi
    have := List.mem_range'_1.mp hi
    simp only [decide_eq_true_eq]
    omega
  have h2 : List.filter (fun i => decide (i < M + 1)) [1 + M] = [] := by
    simp [Nat.add_comm]
  rw [h1, h2, List.append_nil]
  simp

theorem onRetrySeg_fst_lt (onRetry : Option (ℕ → E → Except E Unit))
    (errs : ℕ → E) (attempt k : ℕ) :
    ∀ p ∈ onRetrySeg onRetry errs attempt k, p.1 < attempt + k := by
  cases onRetry with
  | none => simp [onRetrySeg_none]
  | some cb =>
    intro p hp
    simp only [onRetrySeg, List.mem_map] at hp
    obtain ⟨i, hi, rfl⟩ := hp
    have := List.mem_range'_1.mp hi
    exact this.2

/-- C1: if attempts `1 .. a-1` fail with retryable errors and attempt `a`
(with `a ≤ retries`) fails with an error classified fatal, `retry` rethrows
that error immediately: the operation is invoked exactly `a` times (exactly
once when the very first attempt fails fatally, regardless of the configured
retry count), exactly `a - 1` delays are computed and slept — none for the
fatal attempt — and the `onRetry` callback is never invoked for the fatal
attempt (every recorded invocation has attempt number `< a`). -/
theorem retry_fatal_short_circuits (op : ℕ → Except E V) (isFatal : E → Bool)
    (onRetry : Option (ℕ → E → Except E Unit)) (retries : ℕ)
    (baseDelayMs maxDelayMs : ℚ) (exponential jitter : Bool) (rand : ℕ → ℚ)
    (errs : ℕ → E) (a : ℕ) (e : E)
    (ha1 : 1 ≤ a) (haN : a ≤ retries)
    (hpre : ∀ i, 1 ≤ i → i < a →
      op i = Except.error (errs i) ∧ isFatal (errs i) = false)
    (hopa : op a = Except.error e) (hfat : isFatal e = true) :
    retry op isFatal onRetry retries baseDelayMs maxDelayMs exponential
        jitter rand =
      (RetryOutcome.err e,
       { attempts := a,
         onRetryCalls := onRetrySeg onRetry errs 1 (a - 1),
         callbackErrors := cbErrSeg onRetry errs 1 (a - 1),
         delays := (List.range' 1 (a - 1)).map (fun i =>
           computeDelay baseDelayMs i maxDelayMs exponential jitter (rand i)) })
    ∧ (∀ p ∈ onRetrySeg onRetry errs 1 (a - 1), p.1 < a)
    ∧ ((List.range' 1 (a - 1)).map (fun i =>
         computeDelay baseDelayMs i maxDelayMs exponential jitter
           (rand i))).length = a - 1 := by
  refine ⟨?_, ?_, ?_⟩
  · unfold retry
    rw [retryLoop_nonfatal_run op isFatal onRetry retries _ errs (a - 1) 1
      retries none (RetryLog.empty E) (by omega) (by omega)
      (fun i hi1 hi2 => hpre i (by omega) (by omega))]
    have hA : 1 + (a - 1) = a := by omega
    rw [hA]
    obtain ⟨fuel2, hf2⟩ : ∃ f, retries - (a - 1) = f + 1 :=
      ⟨retries - (a - 1) - 1, by omega⟩
    rw [hf2, retryLoop, hopa]
    simp only [hfat, if_true]
    rw [Prod.mk.injEq]
    refine ⟨rfl, ?_⟩
    ext : 1
    · simp only [RetryLog.empty]
      omega
    · simp [RetryLog.empty]
    · simp [RetryLog.empty]
    · simp only [RetryLog.empty, List.nil_append]
      rw [delaySeg_all _ _ _ _ (by omega)]
  · intro p hp
    have := onRetrySeg_fst_lt onRetry errs 1 (a - 1) p hp
    omega
  · simp

/-- C2: if every one of the `N ≥ 1` configured attempts fails with a
retryable error, `retry` invokes the operation exactly `N` times, computes
(and sleeps) a delay exactly `N - 1` times (zero times when `N = 1`), and
rejects with the error of the `N`-th (last) attempt. -/
theorem retry_exhausts_attempts (op : ℕ → Except E V) (isFatal : E → Bool)
    (onRetry : Option (ℕ → E → Except E Unit)) (N : ℕ)
    (baseDelayMs maxDelayMs : ℚ) (exponential jitter : Bool) (rand : ℕ → ℚ)
    (errs : ℕ → E) (hN : 1 ≤ N)
    (hall : ∀ i, 1 ≤ i → i ≤ N →
      op i = Except.error (errs i) ∧ isFatal (errs i) = false) :
    retry op isFatal onRetry N baseDelayMs maxDelayMs exponential jitter
        rand =
      (RetryOutcome.err (errs N),
       { attempts := N,
         onRetryCalls := onRetrySeg onRetry errs 1 N,
         callbackErrors := cbErrSeg onRetry errs 1 N,
         delays := (List.range' 1 (N - 1)).map (fun i =>
           computeDelay baseDelayMs i maxDelayMs exponential jitter (rand i)) })
    ∧ ((List.range' 1 (N - 1)).map (fun i =>
         computeDelay baseDelayMs i maxDelayMs exponential jitter
           (rand i))).length = N - 1 := by
  constructor
  · unfold retry
    rw [retryLoop_nonfatal_run op isFatal onRetry N _ errs N 1 N none
      (RetryLog.empty E) (by omega) (by omega)
      (fun i hi1 hi2 => hall i (by omega) (by omega))]
    have h0 : N - N = 0 := by omega
    have hN1 : 1 + N - 1 = N := by omega
    rw [h0, retryLoop_zero, if_neg (by omega), hN1]
    rw [Prod.mk.injEq]
    refine ⟨rfl, ?_⟩
    ext : 1
    · simp only [RetryLog.empty]
      omega
    · simp [RetryLog.empty]
    · simp [RetryLog.empty]
    · simp only [RetryLog.empty, List.nil_append]
      rw [delaySeg_last _ _ hN]
  · simp

/-- The loop's outcome, attempt count, `onRetry` invocations and delays do
not depend on which callback is supplied: the `try/catch` around `onRetry`
swallows every callback error (only the caught callback errors differ). -/
theorem retryLoop_cb_irrelevant (op : ℕ → Except E V) (isFatal : E → Bool)
    (retries : ℕ) (delayAt : ℕ → ℚ) (cb cb' : ℕ → E → Except E Unit) :
    ∀ (fuel attempt : ℕ) (last : Option E) (log log' : RetryLog E),
      log.attempts = log'.attempts →
      log.onRetryCalls = log'.onRetryCalls →
      log.delays = log'.delays →
      (retryLoop op isFatal (some cb) retries delayAt fuel attempt last log).1 =
        (retryLoop op isFatal (some cb') retries delayAt fuel attempt last log').1
      ∧ (retryLoop op isFatal (some cb) retries delayAt fuel attempt last
          log).2.attempts =
        (retryLoop op isFatal (some cb') retries delayAt fuel attempt last
          log').2.attempts
      ∧ (retryLoop op isFatal (some cb) retries delayAt fuel attempt last
          log).2.onRetryCalls =
        (retryLoop op isFatal (some cb') retries delayAt fuel attempt last
          log').2.onRetryCalls
      ∧ (retryLoop op isFatal (some cb) retries delayAt fuel attempt last
          log).2.delays =
        (retryLoop op isFatal (some cb') retries delayAt fuel attempt last
          log').2.delays := by
  intro fuel
  induction fuel with
  | zero =>
    intro attempt last log log' h1 h2 h3
    simp [retryLoop_zero, h1, h2, h3]
  | succ fuel ih =>
    intro attempt last log log' h1 h2 h3
    simp only [retryLoop]
    cases hop : op attempt with
    | ok v => simp [h1, h2, h3]
    | error e =>
      cases hf : isFatal e with
      | true => simp [hf, h1, h2, h3]
      | false =>
        simp only [hf, Bool.false_eq_true, if_false]
        by_cases hd : attempt < retries <;>
          cases hcb : cb attempt e <;> cases hcb2 : cb' attempt e <;>
          · simp only [hd, if_true, if_false]
            exact ih (attempt + 1) (some e) _ _ (by simp [h1]) (by simp [h2])
              (by simp [h3])

/-- If the loop rejects with an error, that error was produced by one of the
operation's attempts (attempt numbers `1 .. retries`). -/
theorem retryLoop_err_origin (op : ℕ → Except E V) (isFatal : E → Bool)
    (onRetry : Option (ℕ → E → Except E Unit)) (retries : ℕ)
    (delayAt : ℕ → ℚ) :
    ∀ (fuel attempt : ℕ) (last : Option E) (log : RetryLog E),
      attempt + fuel = retries + 1 → 1 ≤ attempt →
      (∀ e0, last = some e0 →
        ∃ i, 1 ≤ i ∧ i ≤ retries ∧ op i = Except.error e0) →
      ∀ e', (retryLoop op isFatal onRetry retries delayAt fuel attempt last
          log).1 = RetryOutcome.err e' →
        ∃ i, 1 ≤ i ∧ i ≤ retries ∧ op i = Except.error e' := by
  intro fuel
  induction fuel with
  | zero =>
    intro attempt last log _h1 _h2 hlast e' he
    rw [retryLoop_zero] at he
    cases last with
    | none => simp at he
    | some e0 =>
      have he2 : RetryOutcome.err (V := V) e0 = RetryOutcome.err e' := he
      injection he2 with h4
      subst h4
      exact hlast _ rfl
  | succ fuel ih =>
    intro attempt last log h1 h2 hlast e' he
    simp only [retryLoop] at he
    cases hop : op attempt with
    | ok v =>
      simp only [hop] at he
      simp at he
    | error e =>
      simp only [hop] at he
      cases hf : isFatal e with
      | true =>
        simp only [hf, if_true] at he
        injection he with h4
        subst h4
        exact ⟨attempt, h2, by omega, hop⟩
      | false =>
        simp only [hf, Bool.false_eq_true, if_false] at he
        refine ih (attempt + 1) (some e) _ (by omega) (by omega) ?_ e' he
        intro e0 h0
        injection h0 with h5
        subst h5
        exact ⟨attempt, h2, by omega, hop⟩

/-- The caught-callback-error log only grows as the loop runs. -/
theorem retryLoop_cbErrors_mono (op : ℕ → Except E V) (isFatal : E → Bool)
    (onRetry : Option (ℕ → E → Except E Unit)) (retries : ℕ)
    (delayAt : ℕ → ℚ) :
    ∀ (fuel attempt : ℕ) (last : Option E) (log : RetryLog E),
      log.callbackErrors <+:
        (retryLoop op isFatal onRetry retries delayAt fuel attempt last
          log).2.callbackErrors := by
  intro fuel
  induction fuel with
  | zero =>
    intro attempt last log
    simp [retryLoop_zero]
  | succ fuel ih =>
    intro attempt last log
    simp only [retryLoop]
    cases hop : op attempt with
    | ok v => simp
    | error e =>
      cases hf : isFatal e with
      | true => simp [hf]
      | false =>
        simp only [hf, Bool.false_eq_true, if_false]
        refine List.IsPrefix.trans ?_ (ih (attempt + 1) (some e) _)
        cases onRetry with
        | none =>
          by_cases hd : attempt < retries <;> simp [hd]
        | some cb =>
          by_cases hd : attempt < retries <;>
            cases hcb : cb attempt e <;> simp [hd, hcb]

/-- C6: if the operation fails with retryable errors through attempt `a` and
the supplied `onRetry` callback itself throws at attempt `a`, the callback's
error is caught and logged (it appears among the recorded caught callback
errors), the retry loop continues unaffected (outcome, attempt count,
`onRetry` invocations, and delays are identical to a run with any other
callback), and the error `retry` ultimately rejects with was produced by one
of the operation's attempts — never by the callback. -/
theorem retry_callback_error_contained (op : ℕ → Except E V)
    (isFatal : E → Bool) (f : ℕ → E → Except E Unit) (N : ℕ)
    (baseDelayMs maxDelayMs : ℚ) (exponential jitter : Bool) (rand : ℕ → ℚ)
    (errs : ℕ → E) (a : ℕ) (ce : E)
    (ha1 : 1 ≤ a) (haN : a ≤ N)
    (hpre : ∀ i, 1 ≤ i → i ≤ a →
      op i = Except.error (errs i) ∧ isFatal (errs i) = false)
    (hcb : f a (errs a) = Except.error ce) :
    ce ∈ (retry op isFatal (some f) N baseDelayMs maxDelayMs exponential
      jitter rand).2.callbackErrors
    ∧ (∀ f2 : ℕ → E → Except E Unit,
        (retry op isFatal (some f) N baseDelayMs maxDelayMs exponential
          jitter rand).1 =
          (retry op isFatal (some f2) N baseDelayMs maxDelayMs exponential
            jitter rand).1
        ∧ (retry op isFatal (some f) N baseDelayMs maxDelayMs exponential
            jitter rand).2.attempts =
          (retry op isFatal (some f2) N baseDelayMs maxDelayMs exponential
            jitter rand).2.attempts
        ∧ (retry op isFatal (some f) N baseDelayMs maxDelayMs exponential
            jitter rand).2.onRetryCalls =
          (retry op isFatal (some f2) N baseDelayMs maxDelayMs exponential
            jitter rand).2.onRetryCalls
        ∧ (retry op isFatal (some f) N baseDelayMs maxDelayMs exponential
            jitter rand).2.delays =
          (retry op isFatal (some f2) N baseDelayMs maxDelayMs exponential
            jitter rand).2.delays)
    ∧ (∀ e2, (retry op isFatal (some f) N baseDelayMs maxDelayMs exponential
        jitter rand).1 = RetryOutcome.err e2 →
        ∃ i, 1 ≤ i ∧ i ≤ N ∧ op i = Except.error e2) := by
  refine ⟨?_, ?_, ?_⟩
  · unfold retry
    rw [retryLoop_nonfatal_run op isFatal (some f) N _ errs a 1 N none
      (RetryLog.empty E) (by omega) (by omega)
      (fun i hi1 hi2 => hpre i (by omega) (by omega))]
    have hmem : ce ∈ cbErrSeg (some f) errs 1 a := by
      unfold cbErrSeg
      refine List.mem_filterMap.mpr ⟨a, ?_, ?_⟩
      · exact List.mem_range'_1.mpr ⟨ha1, by omega⟩
      · simp [hcb]
    have hgrow := retryLoop_cbErrors_mono op isFatal (some f) N
      (fun i => computeDelay baseDelayMs i maxDelayMs exponential jitter
        (rand i))
      (N - a) (1 + a)
      (if a = 0 then none else some (errs (1 + a - 1)))
      { attempts := (RetryLog.empty E).attempts + a,
        onRetryCalls := (RetryLog.empty E).onRetryCalls ++
          onRetrySeg (some f) errs 1 a,
        callbackErrors := (RetryLog.empty E).callbackErrors ++
          cbErrSeg (some f) errs 1 a,
        delays := (RetryLog.empty E).delays ++
          delaySeg (fun i => computeDelay baseDelayMs i maxDelayMs
            exponential jitter (rand i)) N 1 a }
    exact hgrow.subset (by simpa [RetryLog.empty] using hmem)
  · intro f2
    unfold retry
    exact retryLoop_cb_irrelevant op isFatal N
      (fun i => computeDelay baseDelayMs i maxDelayMs exponential jitter
        (rand i)) f f2 N 1 none (RetryLog.empty E) (RetryLog.empty E)
      rfl rfl rfl
  · intro e2 he
    unfold retry at he
    exact retryLoop_err_origin op isFatal (some f) N
      (fun i => computeDelay baseDelayMs i maxDelayMs exponential jitter
        (rand i)) N 1 none (RetryLog.empty E) (by omega) (by omega)
      (fun e0 h0 => Option.noConfusion h0) e2 he

/-- Witness for C3 at `base = 3000`, `attempt = 2`, `max = 9000`, both flags
set, jitter draw `0`. -/
theorem computeDelay_formula_witness :
    ((1 : ℕ) ≤ 2 ∧ (0 : ℚ) ≤ 0 ∧ (0 : ℚ) < 1)
    ∧ (computeDelay 3000 2 9000 true true 0 =
        min ((if true = true then (3000 : ℚ) * (2 : ℚ) ^ (((2 : ℕ) : ℤ) - 1)
              else (3000 : ℚ) * ((2 : ℕ) : ℚ)) +
             (if true = true then (0 : ℚ) * 3000 * (1 / 2) else 0)) 9000
      ∧ (true = true → (0 : ℚ) < 3000 →
          (0 : ℚ) ≤ (0 : ℚ) * 3000 * (1 / 2) ∧
            (0 : ℚ) * 3000 * (1 / 2) < 3000 * (1 / 2))
      ∧ (true = false → true = true →
          computeDelay 3000 2 9000 true true 0 =
            min ((3000 : ℚ) * (2 : ℚ) ^ (((2 : ℕ) : ℤ) - 1)) 9000)) :=
  ⟨⟨by decide, by decide, by decide⟩,
   computeDelay_formula 3000 2 9000 true true 0 (by decide) (by decide)
     (by decide)⟩

/-- Witness for the amended C4 at `base = 3000`, `attempt = 2`,
`max = 9000`, exponential backoff, jitter draw `0`. -/
theorem computeDelay_jitter_bounds_witness :
    ((0 : ℚ) < 3000 ∧ (0 : ℚ) ≤ 0 ∧ (0 : ℚ) < 1)
    ∧ (min (rawDelay 3000 2 true) 9000 ≤ computeDelay 3000 2 9000 true true 0
      ∧ computeDelay 3000 2 9000 true true 0 ≤ 9000) :=
  ⟨⟨by decide, by decide, by decide⟩,
   computeDelay_jitter_bounds 3000 2 9000 true 0 (by decide) (by decide)
     (by decide)⟩

/-- Witness for C1: the operation always fails with the attempt's number as
error, errors `≥ 2` are fatal, so attempt 2 of 5 is fatal: two invocations,
one delay, no `onRetry` entry for attempt 2. -/
theorem retry_fatal_short_circuits_witness :
    ((1 : ℕ) ≤ 2 ∧ (2 : ℕ) ≤ 5
      ∧ (∀ i, 1 ≤ i → i < 2 →
          (fun j => (Except.error j : Except ℕ ℕ)) i = Except.error i
          ∧ (fun e => decide (2 ≤ e)) i = false)
      ∧ (fun j => (Except.error j : Except ℕ ℕ)) 2 = Except.error 2
      ∧ (fun e => decide (2 ≤ e)) 2 = true)
    ∧ (retry (fun j => (Except.error j : Except ℕ ℕ))
          (fun e => decide (2 ≤ e))
          none 5 3000 9000 true true (fun _ => 0) =
        (RetryOutcome.err 2,
         { attempts := 2,
           onRetryCalls := onRetrySeg none (fun j => j) 1 (2 - 1),
           callbackErrors := cbErrSeg none (fun j => j) 1 (2 - 1),
           delays := (List.range' 1 (2 - 1)).map (fun i =>
             computeDelay 3000 i 9000 true true 0) })
      ∧ (∀ p ∈ onRetrySeg none (fun j => j) 1 (2 - 1), p.1 < 2)
      ∧ ((List.range' 1 (2 - 1)).map (fun i =>
           computeDelay 3000 i 9000 true true 0)).length = 2 - 1) :=
  ⟨⟨by decide, by decide, by decide, by decide, by decide⟩,
   retry_fatal_short_circuits (fun j => Except.error j)
     (fun e => decide (2 ≤ e)) none 5 3000 9000 true true (fun _ => 0)
     (fun j => j) 2 2 (by decide) (by decide) (by decide) (by decide)
     (by decide)⟩

/-- Witness for C2: an operation that fails on all `N = 3` attempts with a
retryable error: three invocations, two delays, the third attempt's error. -/
theorem retry_exhausts_attempts_witness :
    ((1 : ℕ) ≤ 3
      ∧ (∀ i, 1 ≤ i → i ≤ 3 →
          (fun j => (Except.error j : Except ℕ ℕ)) i = Except.error i
          ∧ (fun _ => false) i = false))
    ∧ (retry (fun j => (Except.error j : Except ℕ ℕ)) (fun _ => false)
          none 3 3000 9000 true true (fun _ => 0) =
        (RetryOutcome.err 3,
         { attempts := 3,
           onRetryCalls := onRetrySeg none (fun j => j) 1 3,
           callbackErrors := cbErrSeg none (fun j => j) 1 3,
           delays := (List.range' 1 (3 - 1)).map (fun i =>
             computeDelay 3000 i 9000 true true 0) })
      ∧ ((List.range' 1 (3 - 1)).map (fun i =>
           computeDelay 3000 i 9000 true true 0)).length = 3 - 1) :=
  ⟨⟨by decide, by decide⟩,
   retry_exhausts_attempts (fun j => Except.error j) (fun _ => false)
     none 3 3000 9000 true true (fun _ => 0) (fun j => j) (by decide)
     (by decide)⟩

/-- Witness for C6: the operation fails retryably on every attempt and the
callback throws `99` at attempt 1 of 2: the error `99` is caught and logged,
and the run is unaffected by the callback. -/
theorem retry_callback_error_contained_witness :
    ((1 : ℕ) ≤ 1 ∧ (1 : ℕ) ≤ 2
      ∧ (∀ i, 1 ≤ i → i ≤ 1 →
          (fun j => (Except.error j : Except ℕ ℕ)) i = Except.error i
          ∧ (fun _ => false) i = false)
      ∧ (fun _ _ => (Except.error 99 : Except ℕ Unit)) 1 1 = Except.error 99)
    ∧ ((99 : ℕ) ∈ (retry (fun j => (Except.error j : Except ℕ ℕ))
          (fun _ => false) (some (fun _ _ => Except.error 99)) 2 3000 9000
          true true (fun _ => 0)).2.callbackErrors
      ∧ (∀ f2 : ℕ → ℕ → Except ℕ Unit,
          (retry (fun j => (Except.error j : Except ℕ ℕ)) (fun _ => false)
            (some (fun _ _ => Except.error 99)) 2 3000 9000 true true
            (fun _ => 0)).1 =
            (retry (fun j => (Except.error j : Except ℕ ℕ)) (fun _ => false)
              (some f2) 2 3000 9000 true true (fun _ => 0)).1
          ∧ (retry (fun j => (Except.error j : Except ℕ ℕ)) (fun _ => false)
              (some (fun _ _ => Except.error 99)) 2 3000 9000 true true
              (fun _ => 0)).2.attempts =
            (retry (fun j => (Except.error j : Except ℕ ℕ)) (fun _ => false)
              (some f2) 2 3000 9000 true true (fun _ => 0)).2.attempts
          ∧ (retry (fun j => (Except.error j : Except ℕ ℕ)) (fun _ => false)
              (some (fun _ _ => Except.error 99)) 2 3000 9000 true true
              (fun _ => 0)).2.onRetryCalls =
            (retry (fun j => (Except.error j : Except ℕ ℕ)) (fun _ => false)
              (some f2) 2 3000 9000 true true (fun _ => 0)).2.onRetryCalls
          ∧ (retry (fun j => (Except.error j : Except ℕ ℕ)) (fun _ => false)
              (some (fun _ _ => Except.error 99)) 2 3000 9000 true true
              (fun _ => 0)).2.delays =
            (retry (fun j => (Except.error j : Except ℕ ℕ)) (fun _ => false)
              (some f2) 2 3000 9000 true true (fun _ => 0)).2.delays)
      ∧ (∀ e2, (retry (fun j => (Except.error j : Except ℕ ℕ))
            (fun _ => false) (some (fun _ _ => Except.error 99)) 2 3000 9000
            true true (fun _ => 0)).1 = RetryOutcome.err e2 →
          ∃ i, 1 ≤ i ∧ i ≤ 2 ∧
            (fun j => (Except.error j : Except ℕ ℕ)) i = Except.error e2)) :=
  ⟨⟨by decide, by decide, by decide, by decide⟩,
   retry_callback_error_contained (fun j => Except.error j) (fun _ => false)
     (fun _ _ => Except.error 99) 2 3000 9000 true true (fun _ => 0)
     (fun j => j) 1 99 (by decide) (by decide) (by decide) (by decide)⟩

end RetryUtils

/-- C7: the classifier scenario: the message `Invalid selector: //bad[[` is
classified fatal (by the retry engine's fatal classifier and by the error
handler's fatal-Playwright classifier); `Timeout 30000ms exceeded` is
classified as a timeout error and is not classified fatal by either fatal
classifier; `net::ERR_CONNECTION_RESET` is classified as a network error. -/
theorem classifier_scenarios :
    RetryUtils.isFatal ("Invalid selector: //bad[[") = true
    ∧ ErrorHandler.isFatalPlaywrightError ("Invalid selector: //bad[[") = true
    ∧ ErrorHandler.isTimeoutError ("Timeout 30000ms exceeded") = true
    ∧ RetryUtils.isFatal ("Timeout 30000ms exceeded") = false
    ∧ ErrorHandler.isFatalPlaywrightError ("Timeout 30000ms exceeded") = false
    ∧ ErrorHandler.isNetworkError ("net::ERR_CONNECTION_RESET") = true := by
  refine ⟨by decide, by decide, by decide, by decide, by decide, by decide⟩

namespace WaitUtils

/-- C8 (counterexample): a `waitForText` run with `timeout = 1000 ms`,
`interval = 250 ms`, on a target whose text never contains the expected
substring, times out after 1000 ms (as the log line records), but the error
it rejects with is `` Timeout waiting for text "Saved" in → Spinner ``,
which does not include the elapsed time — it contains no digits at all.  The
claim that every wait-timeout error's message includes the elapsed time is
therefore false. -/
theorem waitForText_error_lacks_elapsed :
    (waitForText (fun _ => some ("Loading")) ("Saved") 1000 250
      ("Spinner")).1 = Except.error (textTimeoutMsg ("Saved") ("Spinner"))
    ∧ (waitForText (fun _ => some ("Loading")) ("Saved") 1000 250
        ("Spinner")).2 = [textNotFoundLog ("Saved") 1000 ("Spinner")]
    ∧ textTimeoutMsg ("Saved") ("Spinner") =
        "Timeout waiting for text \"Saved\" in → Spinner"
    ∧ strIncludes (textTimeoutMsg ("Saved") ("Spinner"))
        (toString (1000 : ℕ)) = false
    ∧ ((textTimeoutMsg ("Saved") ("Spinner")).toList.all
        (fun c => !c.isDigit)) = true := by
  refine ⟨by decide, by decide, by decide, by decide, by decide⟩

theorem waitForTextGo_times_out (textAt : ℕ → Option String)
    (expected : String) (timeout interval : ℕ) (name : String)
    (hno : ∀ n, textMatches textAt expected n = false) :
    ∀ (fuel n : ℕ), timeout ≤ (n + fuel) * interval →
      ∃ k, n * interval ≤ k ∧ timeout ≤ k ∧
        waitForTextGo textAt expected timeout interval name fuel n =
          (Except.error (textTimeoutMsg expected name),
           [textNotFoundLog expected k name]) := by
  intro fuel
  induction fuel with
  | zero =>
    intro n h
    exact ⟨n * interval, le_rfl, by simpa using h, rfl⟩
  | succ fuel ih =>
    intro n h
    rw [waitForTextGo]
    by_cases hg : n * interval < timeout
    · rw [if_pos hg, hno n, if_neg (by simp)]
      obtain ⟨k, hk1, hk2, hk3⟩ := ih (n + 1)
        (by have h2 : n + 1 + fuel = n + (fuel + 1) := by omega
            rw [h2]; exact h)
      refine ⟨k, ?_, hk2, hk3⟩
      exact le_trans (Nat.mul_le_mul_right interval (by omega)) hk1
    · rw [if_neg hg]
      exact ⟨n * interval, le_rfl, by omega, rfl⟩

/-- C8 (amended): on timeout each wait operation logs an error line carrying
the elapsed time and the target's human-readable label, and rejects — it
never silently returns `false`.  The rejecting error itself carries the
elapsed time only in that log line: `waitForText` on a target whose text
never contains the expected substring rejects after the configured timeout
with an `Error` naming the expected text and the label (not the elapsed
time), while `waitForElementToDisappear` on a target that never disappears
rethrows the underlying wait error unchanged, alongside the
`Timeout after <elapsed>ms → <label>` log. -/
theorem wait_timeout_reporting (textAt : ℕ → Option String)
    (expected name : String) (timeout interval : ℕ)
    (hint : 1 ≤ interval)
    (hno : ∀ n, textMatches textAt expected n = false) :
    (∃ k, timeout ≤ k ∧
      waitForText textAt expected timeout interval name =
        (Except.error (textTimeoutMsg expected name),
         [textNotFoundLog expected k name]))
    ∧ (∀ (e : String) (elapsed : ℕ),
        waitForElementToDisappear (Except.error e) elapsed name =
          (Except.error e,
           ["Timeout after " ++ toString elapsed ++ "ms → " ++ name])) := by
  constructor
  · have hgo := waitForTextGo_times_out textAt expected timeout interval name
      hno (timeout + 1) 0 (by
        calc timeout ≤ (timeout + 1) * 1 := by omega
          _ ≤ (timeout + 1) * interval :=
              Nat.mul_le_mul_left (timeout + 1) hint
          _ = (0 + (timeout + 1)) * interval := by rw [Nat.zero_add])
    obtain ⟨k, _, hk2, hk3⟩ := hgo
    exact ⟨k, hk2, hk3⟩
  · intro e elapsed
    rfl

/-- Witness for the amended C8: a spinner whose text is always `Loading`
polled for `Saved` with a 1000 ms timeout at 250 ms intervals. -/
theorem wait_timeout_reporting_witness :
    ((1 : ℕ) ≤ 250
      ∧ (∀ n, textMatches (fun _ => some ("Loading")) ("Saved") n = false))
    ∧ ((∃ k, 1000 ≤ k ∧
        waitForText (fun _ => some ("Loading")) ("Saved") 1000 250
          ("Spinner") =
          (Except.error (textTimeoutMsg ("Saved") ("Spinner")),
           [textNotFoundLog ("Saved") k ("Spinner")]))
      ∧ (∀ (e : String) (elapsed : ℕ),
          waitForElementToDisappear (Except.error e) elapsed ("Spinner") =
            (Except.error e,
             ["Timeout after " ++ toString elapsed ++ "ms → " ++
               "Spinner"]))) :=
  ⟨⟨by decide, by intro n; simp only [textMatches]; decide⟩,
   wait_timeout_reporting (fun _ => some ("Loading")) ("Saved") ("Spinner")
     1000 250 (by decide) (by intro n; simp only [textMatches]; decide)⟩

end WaitUtils

namespace ElementUtils

/-- C9: within one click attempt, after visibility and the best-effort
scroll, if the direct click fails then: when a bounding box is available the
attempt succeeds by dispatching a synthetic pointer click at the box's
center `(x + width/2, y + height/2)`; when no bounding box can be obtained
the attempt fails with a descriptive error naming the target's label and no
coordinate click is dispatched. -/
theorem clickAttempt_fallback (w : ClickWorld) (label : String) (e : String)
    (hv : w.waitVisible = Except.ok ())
    (hd : w.directClick = Except.error e) :
    (∀ box, w.boundingBox = some box →
      clickAttempt w label =
        (Except.ok (),
         scrollEvents w ++
           [ClickEvent.mouseClicked (box.x + box.width / 2)
             (box.y + box.height / 2)]))
    ∧ (w.boundingBox = none →
        clickAttempt w label =
          (Except.error ("Bounding box not found → " ++ label),
           scrollEvents w)
        ∧ ∀ x y, ClickEvent.mouseClicked x y ∉ (clickAttempt w label).2) := by
  constructor
  · intro box hb
    simp [clickAttempt, hv, hd, hb]
  · intro hb
    constructor
    · simp [clickAttempt, hv, hd, hb]
    · intro x y hmem
      simp only [clickAttempt, hv, hd, hb] at hmem
      unfold scrollEvents at hmem
      cases hsc : w.scrollIntoView <;> simp [hsc] at hmem

/-- Witness for C9: visibility and scroll succeed, the direct click fails
with `blocked`, and the box `(10, 20, 30, 40)` is available, so the fallback
clicks at `(25, 40)`. -/
theorem clickAttempt_fallback_witness :
    ((ClickWorld.mk (Except.ok ()) (Except.ok ())
        (Except.error ("blocked")) (some (BoundingBox.mk 10 20 30 40))
        ).waitVisible = Except.ok ()
      ∧ (ClickWorld.mk (Except.ok ()) (Except.ok ())
          (Except.error ("blocked")) (some (BoundingBox.mk 10 20 30 40))
          ).directClick = Except.error ("blocked"))
    ∧ ((∀ box, (ClickWorld.mk (Except.ok ()) (Except.ok ())
          (Except.error ("blocked")) (some (BoundingBox.mk 10 20 30 40))
          ).boundingBox = some box →
        clickAttempt (ClickWorld.mk (Except.ok ()) (Except.ok ())
          (Except.error ("blocked")) (some (BoundingBox.mk 10 20 30 40)))
          ("Save") =
          (Except.ok (),
           scrollEvents (ClickWorld.mk (Except.ok ()) (Except.ok ())
             (Except.error ("blocked"))
             (some (BoundingBox.mk 10 20 30 40))) ++
             [ClickEvent.mouseClicked (box.x + box.width / 2)
               (box.y + box.height / 2)]))
      ∧ ((ClickWorld.mk (Except.ok ()) (Except.ok ())
            (Except.error ("blocked")) (some (BoundingBox.mk 10 20 30 40))
            ).boundingBox = none →
          clickAttempt (ClickWorld.mk (Except.ok ()) (Except.ok ())
            (Except.error ("blocked")) (some (BoundingBox.mk 10 20 30 40)))
            ("Save") =
            (Except.error ("Bounding box not found → " ++ "Save"),
             scrollEvents (ClickWorld.mk (Except.ok ()) (Except.ok ())
               (Except.error ("blocked"))
               (some (BoundingBox.mk 10 20 30 40))))
          ∧ ∀ x y, ClickEvent.mouseClicked x y ∉
              (clickAttempt (ClickWorld.mk (Except.ok ()) (Except.ok ())
                (Except.error ("blocked"))
                (some (BoundingBox.mk 10 20 30 40))) ("Save")).2)) :=
  ⟨⟨rfl, rfl⟩,
   clickAttempt_fallback
     (ClickWorld.mk (Except.ok ()) (Except.ok ()) (Except.error ("blocked"))
       (some (BoundingBox.mk 10 20 30 40))) ("Save") ("blocked") rfl rfl⟩

end ElementUtils

/-- C10: for every store, key `k`, and value `v`, `Runtime.set k v` followed
immediately by `Runtime.get k` returns exactly `v`; `Runtime.remove k`
followed by `Runtime.has k` returns `false`; and `set` with an existing key
overwrites the previous value unconditionally — setting `v2` over `v1`
yields the same store as setting `v2` alone. -/
theorem runtime_store_roundtrip (V : Type) (store : Runtime.Store V)
    (k : String) (v : JSValue V) :
    Runtime.get (Runtime.set store k v) k = v
    ∧ Runtime.has (Runtime.remove store k) k = false
    ∧ (∀ v1 v2 : JSValue V,
        Runtime.set (Runtime.set store k v1) k v2 =
          Runtime.set store k v2) := by
  refine ⟨?_, ?_, ?_⟩
  · simp [Runtime.get, Runtime.set]
  · simp [Runtime.has, Runtime.remove]
  · intro v1 v2
    funext k2
    by_cases h : k2 = k <;> simp [Runtime.set, h]
